import Mathlib

/-!
Verification development for the LucentPath trading bot.

Shallow embedding of the Python sources:
  * `enhanced_risk_management.py` — `Position`, `RiskManager`, `FairValueGapStrategy`
  * `core_engine.py` — the strategy classes, `ExchangeConnector.place_order`,
    `TradingBot.execute_signal`
  * `app.py` — worker registry and the `/bot/start` route

Prices and quantities are modelled as rationals (`ℚ`); Python `datetime`
values as integers (seconds) or rationals (days) where the code compares
them.  Python `dict`s used as keyed tables are modelled as association
lists with replace-on-insert semantics (insertion order preserved, keys
unique), matching `dict` behaviour.
-/

namespace LucentPath

/-- `PositionStatus` enum of `enhanced_risk_management.py`. -/
inductive PositionStatus where
  | open
  | closed
  | partial_
  deriving DecidableEq, Repr

/-- The `Position` dataclass of `enhanced_risk_management.py` (lines 14-36).
`side` is the raw string `'buy'` / `'sell'` exactly as in the Python code;
`entry_time` is the POSIX timestamp (seconds) of the Python `datetime`. -/
structure Position where
  symbol : String
  side : String
  size : ℚ
  entry_price : ℚ
  current_price : ℚ
  entry_time : ℤ
  stop_loss : Option ℚ := none
  take_profit : Option ℚ := none
  unrealized_pnl : ℚ := 0
  realized_pnl : ℚ := 0
  status : PositionStatus := .open
  position_id : String := ""
  exchange : String := ""
  entry_value : ℚ := 0
  current_value : ℚ := 0
  deriving DecidableEq, Repr

/-- `Position.update_current_price` (lines 38-45). -/
def updateCurrentPrice (price : ℚ) (p : Position) : Position :=
  { p with
    current_price := price
    current_value := p.size * price
    unrealized_pnl :=
      if p.side = "buy" then (price - p.entry_price) * p.size
      else (p.entry_price - price) * p.size }

/-- `Position.__post_init__` (lines 32-36): default the id from symbol, side
and entry timestamp, set `entry_value`, then refresh the derived fields via
`update_current_price(current_price)`. -/
def mkPosition (p : Position) : Position :=
  let p1 :=
    if p.position_id = "" then
      { p with position_id :=
          p.symbol ++ "_" ++ p.side ++ "_" ++ toString p.entry_time }
    else p
  let p2 := { p1 with entry_value := p1.size * p1.entry_price }
  updateCurrentPrice p2.current_price p2

/-- Effective risk settings (the tier dictionaries of
`get_tier_risk_settings`, lines 85-121, have exactly these keys). -/
structure RiskSettings where
  max_position_size : ℚ
  max_daily_loss : ℚ
  default_stop_loss : ℚ
  default_take_profit : ℚ
  max_open_positions : ℕ
  max_daily_trades : ℕ
  deriving DecidableEq, Repr

/-- `get_tier_risk_settings` (lines 85-121); an unknown tier falls back to
`'basic'` via `tier_settings.get(tier, tier_settings['basic'])`. -/
def getTierRiskSettings (tier : String) : RiskSettings :=
  if tier = "basic" then
    ⟨5, 3, 3, 6, 3, 10⟩
  else if tier = "pro" then
    ⟨8, 5, 5/2, 5, 5, 25⟩
  else if tier = "premium" then
    ⟨10, 7, 2, 4, 8, 50⟩
  else if tier = "enterprise" then
    ⟨15, 10, 3/2, 3, 12, 100⟩
  else
    ⟨5, 3, 3, 6, 3, 10⟩

/-- Per-key overrides held in `self.custom_settings`; `None` means the key
is absent from the dict. -/
structure SettingsOverride where
  max_position_size : Option ℚ := none
  max_daily_loss : Option ℚ := none
  default_stop_loss : Option ℚ := none
  default_take_profit : Option ℚ := none
  max_open_positions : Option ℕ := none
  max_daily_trades : Option ℕ := none
  deriving DecidableEq, Repr

/-- `get_effective_settings` (lines 127-131): tier defaults updated by the
custom dict (`effective.update(self.custom_settings)`). -/
def applyOverride (base : RiskSettings) (o : SettingsOverride) : RiskSettings :=
  { max_position_size := o.max_position_size.getD base.max_position_size
    max_daily_loss := o.max_daily_loss.getD base.max_daily_loss
    default_stop_loss := o.default_stop_loss.getD base.default_stop_loss
    default_take_profit := o.default_take_profit.getD base.default_take_profit
    max_open_positions := o.max_open_positions.getD base.max_open_positions
    max_daily_trades := o.max_daily_trades.getD base.max_daily_trades }

/-- The position table `self.positions : Dict[str, Position]`, as an
association list with unique keys. -/
abbrev PositionMap := List (String × Position)

/-- Dict lookup `self.positions[position_id]` / `position_id in self.positions`. -/
def pmLookup : PositionMap → String → Option Position
  | [], _ => none
  | (k, v) :: rest, pid => if k = pid then some v else pmLookup rest pid

/-- Dict assignment `self.positions[pid] = pos`: replace an existing key in
place, otherwise append (Python dict semantics). -/
def pmSet : PositionMap → String → Position → PositionMap
  | [], pid, v => [(pid, v)]
  | (k, v0) :: rest, pid, v =>
      if k = pid then (k, v) :: rest else (k, v0) :: pmSet rest pid v

/-- Mutable state of a `RiskManager` (lines 76-83). -/
structure RMState where
  user_id : String
  tier : String
  positions : PositionMap
  daily_pnl : ℚ
  daily_trade_count : ℕ
  custom_settings : SettingsOverride
  deriving DecidableEq, Repr

/-- `RiskManager.__init__` (lines 76-83). -/
def freshRiskManager (user_id tier : String) : RMState :=
  { user_id := user_id
    tier := tier
    positions := []
    daily_pnl := 0
    daily_trade_count := 0
    custom_settings := {} }

/-- `get_effective_settings` for a state. -/
def effectiveSettings (s : RMState) : RiskSettings :=
  applyOverride (getTierRiskSettings s.tier) s.custom_settings

/-- `add_position` (lines 133-136). -/
def addPosition (s : RMState) (p : Position) : RMState :=
  { s with
    positions := pmSet s.positions p.position_id p
    daily_trade_count := s.daily_trade_count + 1 }

/-- `update_position_price` (lines 138-141): no-op when the id is absent. -/
def updatePositionPrice (s : RMState) (pid : String) (price : ℚ) : RMState :=
  (pmLookup s.positions pid).elim s
    (fun p => { s with positions := pmSet s.positions pid (updateCurrentPrice price p) })

/-- `close_position` (lines 143-152): no-op when the id is absent; otherwise
set the current price to the close price (the explicit assignment followed by
`update_current_price(close_price)` nets to one update), freeze
`realized_pnl := unrealized_pnl`, mark CLOSED and add the realized PnL into
`daily_pnl`.  The `close_time` argument is accepted and, as in the source,
never read. -/
def closePosition (s : RMState) (pid : String) (close_price : ℚ)
    (close_time : Option ℤ := none) : RMState :=
  (pmLookup s.positions pid).elim s
    (fun p =>
      let _ := close_time
      let p1 := updateCurrentPrice close_price p
      let p2 := { p1 with realized_pnl := p1.unrealized_pnl, status := PositionStatus.closed }
      { s with
        positions := pmSet s.positions pid p2
        daily_pnl := s.daily_pnl + p2.realized_pnl })

/-- `get_open_positions` (lines 154-156). -/
def getOpenPositions (s : RMState) : List Position :=
  (s.positions.map Prod.snd).filter (fun p => p.status = PositionStatus.open)

/-- `can_open_new_position` (lines 162-180).  The reason strings track the
f-strings of the source, with `toString` in place of Python numeric
formatting. -/
def canOpenNewPosition (s : RMState) (portfolio_value : ℚ) : Bool × String :=
  let settings := effectiveSettings s
  let open_count := (getOpenPositions s).length
  if open_count ≥ settings.max_open_positions then
    (false, "Maximum open positions reached (" ++ toString open_count ++ "/"
      ++ toString settings.max_open_positions ++ ")")
  else
    let daily_loss_pct : ℚ :=
      if portfolio_value > 0 then s.daily_pnl / portfolio_value * 100 else 0
    if daily_loss_pct ≤ -settings.max_daily_loss then
      (false, "Daily loss limit reached (" ++ toString daily_loss_pct ++ "%/"
        ++ toString settings.max_daily_loss ++ "%)")
    else if s.daily_trade_count ≥ settings.max_daily_trades then
      (false, "Daily trade limit reached (" ++ toString s.daily_trade_count ++ "/"
        ++ toString settings.max_daily_trades ++ ")")
    else
      (true, "OK")

/-- `calculate_position_size` (lines 182-197).  The Python guard
`if stop_loss_price and stop_loss_price > 0` is truthiness (`not None` and
nonzero) conjoined with positivity, i.e. the risk-based cap applies exactly
when a positive stop-loss price is supplied. -/
def calculatePositionSize (s : RMState) (entry_price portfolio_value : ℚ)
    (stop_loss_price : Option ℚ := none) : ℚ :=
  let settings := effectiveSettings s
  let max_position_value := portfolio_value * (settings.max_position_size / 100)
  let position_size := max_position_value / entry_price
  stop_loss_price.elim position_size
    (fun sl =>
      if sl ≠ 0 ∧ sl > 0 then
        let risk_per_share := |entry_price - sl|
        let max_risk_amount := portfolio_value * (settings.default_stop_loss / 100)
        let risk_based_size := max_risk_amount / risk_per_share
        min position_size risk_based_size
      else position_size)

/-! ### Fair Value Gap strategy (`enhanced_risk_management.py`, lines 199-329) -/

/-- One OHLC row of the pandas DataFrame.  `ts` is the row's index
timestamp, measured in days (the code compares timestamps against
`current_time - timedelta(days=7)`). -/
structure Candle where
  high : ℚ
  low : ℚ
  close : ℚ
  ts : ℚ
  deriving DecidableEq, Repr

/-- A fair value gap dict as built by `identify_fair_value_gaps`:
`kind` is the `'type'` field (`true` = bullish). -/
structure Gap where
  bullish : Bool
  gap_low : ℚ
  gap_high : ℚ
  gap_size : ℚ
  ts : ℚ
  filled : Bool
  fill_price : Option ℚ := none
  deriving DecidableEq, Repr

/-- The gap (if any) recognised at one window `(prev2, prev1, current)` of
`identify_fair_value_gaps` (lines 217-248): the bullish test runs first and
the bearish test only in its `elif` branch. -/
def gapAt (min_gap_size : ℚ) (prev2 prev1 current : Candle) : List Gap :=
  if prev1.low > prev2.high ∧ current.low > prev2.high then
    let gap_size := (prev1.low - prev2.high) / prev2.close
    if gap_size ≥ min_gap_size then
      [{ bullish := true, gap_low := prev2.high, gap_high := prev1.low,
         gap_size := gap_size, ts := current.ts, filled := false }]
    else []
  else if prev1.high < prev2.low ∧ current.high < prev2.low then
    let gap_size := (prev2.low - prev1.high) / prev2.close
    if gap_size ≥ min_gap_size then
      [{ bullish := false, gap_low := prev1.high, gap_high := prev2.low,
         gap_size := gap_size, ts := current.ts, filled := false }]
    else []
  else []

/-- `identify_fair_value_gaps` (lines 210-250): every window
`(df[i-2], df[i-1], df[i])` for `i` in `range(2, len(df))`, in order.  A
series shorter than 3 yields no gaps, as in the `len(df) < 3` guard. -/
def identifyFairValueGaps (min_gap_size : ℚ) : List Candle → List Gap
  | p2 :: p1 :: c :: rest =>
      gapAt min_gap_size p2 p1 c ++ identifyFairValueGaps min_gap_size (p1 :: c :: rest)
  | _ => []

/-- `check_gap_fills` (lines 252-274) applied to one gap, with the last
row's close/high/low already extracted. -/
def checkGapFill (gap_fill_threshold current_price current_high current_low : ℚ)
    (g : Gap) : Gap :=
  if g.filled then g
  else if g.bullish then
    if current_low ≤ g.gap_low + (g.gap_high - g.gap_low) * gap_fill_threshold then
      { g with filled := true, fill_price := some current_price }
    else g
  else
    if current_high ≥ g.gap_high - (g.gap_high - g.gap_low) * gap_fill_threshold then
      { g with filled := true, fill_price := some current_price }
    else g

/-- `check_gap_fills` over the whole gap list. -/
def checkGapFills (gap_fill_threshold current_price current_high current_low : ℚ)
    (gaps : List Gap) : List Gap :=
  gaps.map (checkGapFill gap_fill_threshold current_price current_high current_low)

/-- `df['close'].iloc[-1]` (0 for an empty frame, which the guarded callers
never query). -/
def lastClose (df : List Candle) : ℚ := ((df.getLast?).map Candle.close).getD 0

/-- `df['high'].iloc[-1]`. -/
def lastHigh (df : List Candle) : ℚ := ((df.getLast?).map Candle.high).getD 0

/-- `df['low'].iloc[-1]`. -/
def lastLow (df : List Candle) : ℚ := ((df.getLast?).map Candle.low).getD 0

/-- `df.index[-1]`. -/
def lastTs (df : List Candle) : ℚ := ((df.getLast?).map Candle.ts).getD 0

/-- The trading-signal dict returned by
`FairValueGapStrategy.generate_signals`. -/
structure FVGSignal where
  action : String
  confidence : ℚ
  reason : String
  target : Option ℚ := none
  stop_loss : Option ℚ := none
  gap_info : Option Gap := none
  deriving DecidableEq, Repr

/-- The configuration of a `FairValueGapStrategy` instance (lines 202-208). -/
structure FVGConfig where
  lookback_period : ℕ := 20
  min_gap_size : ℚ := 1/500
  gap_fill_threshold : ℚ := 1/2
  deriving DecidableEq, Repr

/-- `required_candles = lookback_period + 5` (line 207). -/
def FVGConfig.required_candles (c : FVGConfig) : ℕ := c.lookback_period + 5

/-- Does a gap trigger a signal at `current_price`?  The loop body
(lines 297-327) computes the gap midpoint and fires when the relative
distance is below 1%, skipping filled gaps. -/
def gapTriggers (current_price : ℚ) (g : Gap) : Bool :=
  let gap_center := (g.gap_high + g.gap_low) / 2
  let distance_to_gap := |current_price - gap_center| / current_price
  g.filled = false ∧ distance_to_gap < 1/100

/-- The signal returned for a triggering gap (lines 307-327). -/
def gapSignal (g : Gap) : FVGSignal :=
  let gap_center := (g.gap_high + g.gap_low) / 2
  let confidence := min 90 (g.gap_size * 10000)
  if g.bullish then
    { action := "buy", confidence := confidence,
      reason := "Price near unfilled bullish FVG at " ++ toString gap_center,
      target := some g.gap_high, stop_loss := some (g.gap_low * (995/1000)),
      gap_info := some g }
  else
    { action := "sell", confidence := confidence,
      reason := "Price near unfilled bearish FVG at " ++ toString gap_center,
      target := some g.gap_low, stop_loss := some (g.gap_high * (1005/1000)),
      gap_info := some g }

/-- The `for gap in self.active_gaps` loop (lines 297-327): the first
triggering gap wins; no trigger falls through to the hold result. -/
def findGapSignal (current_price : ℚ) : List Gap → Option FVGSignal
  | [] => none
  | g :: rest =>
      if gapTriggers current_price g then some (gapSignal g)
      else findGapSignal current_price rest

/-- The gap list held in `self.active_gaps` after the update phase of
`generate_signals` (lines 281-292): extend with the gaps of the last
`lookback_period` rows, run the fill check against the last row, then drop
filled gaps and gaps older than 7 days. -/
def activeGapsAfter (cfg : FVGConfig) (state : List Gap) (df : List Candle) : List Gap :=
  let recent_gaps :=
    identifyFairValueGaps cfg.min_gap_size (df.drop (df.length - cfg.lookback_period))
  let extended := state ++ recent_gaps
  let checked :=
    checkGapFills cfg.gap_fill_threshold (lastClose df) (lastHigh df) (lastLow df) extended
  let cutoff_time := lastTs df - 7
  checked.filter (fun g => g.filled = false ∧ g.ts > cutoff_time)

/-- `FairValueGapStrategy.generate_signals` (lines 276-329): returns the
updated `self.active_gaps` together with the signal dict. -/
def generateSignals (cfg : FVGConfig) (state : List Gap) (df : List Candle) :
    List Gap × FVGSignal :=
  if df.length < cfg.required_candles then
    (state, { action := "hold", confidence := 0, reason := "insufficient_data" })
  else
    let active := activeGapsAfter cfg state df
    (findGapSignal (lastClose df) active).elim
      (active, { action := "hold", confidence := 0, reason := "no_gap_opportunities" })
      (fun sig => (active, sig))

/-! ### Strategies of `core_engine.py` -/

/-- `OrderType` enum (lines 25-27). -/
inductive OrderType where
  | buy
  | sell
  deriving DecidableEq, Repr

/-- `OrderType.value`. -/
def OrderType.val : OrderType → String
  | .buy => "buy"
  | .sell => "sell"

/-- The `TradeSignal` dataclass (lines 41-49); `strategy` holds the
`StrategyType` enum value string, `timestamp` the POSIX time of
`datetime.now()`. -/
structure TradeSignal where
  symbol : String
  action : OrderType
  price : ℚ
  quantity : ℚ
  strategy : String
  confidence : ℚ
  timestamp : ℤ
  deriving DecidableEq, Repr

/-- The last `w` entries of a list (`rolling(window=w)` at the final index). -/
def lastN (w : ℕ) (xs : List ℚ) : List ℚ := xs.drop (xs.length - w)

/-- `rolling(window=w).mean()` evaluated at the final index. -/
def rollingMeanLast (w : ℕ) (xs : List ℚ) : ℚ := (lastN w xs).sum / w

/-- `iloc[-1]` on a numeric column. -/
def lastElem (xs : List ℚ) : ℚ := (xs.getLast?).getD 0

/-- `SMAStrategy.generate_signal` (lines 90-129) on the `close` column.
`now` is the POSIX time of `datetime.now()`;
`required_candles = max(fast, slow) + 5` (line 88). -/
def smaGenerateSignal (fast_period slow_period : ℕ) (closes : List ℚ)
    (symbol : String) (now : ℤ) : Option TradeSignal :=
  if closes.length < max fast_period slow_period + 5 then none
  else
    let current_fast := rollingMeanLast fast_period closes
    let current_slow := rollingMeanLast slow_period closes
    let prev_fast := rollingMeanLast fast_period closes.dropLast
    let prev_slow := rollingMeanLast slow_period closes.dropLast
    let current_price := lastElem closes
    if prev_fast ≤ prev_slow ∧ current_fast > current_slow then
      some { symbol := symbol, action := .buy, price := current_price, quantity := 0,
             strategy := "sma_crossover", confidence := 7/10, timestamp := now }
    else if prev_fast ≥ prev_slow ∧ current_fast < current_slow then
      some { symbol := symbol, action := .sell, price := current_price, quantity := 0,
             strategy := "sma_crossover", confidence := 7/10, timestamp := now }
    else none

/-- `prices.diff()` (line 143): `delta[i] = prices[i] - prices[i-1]`, the
leading NaN dropped. -/
def priceDeltas : List ℚ → List ℚ
  | a :: b :: rest => (b - a) :: priceDeltas (b :: rest)
  | _ => []

/-- `RSIStrategy.calculate_rsi` (lines 141-148) evaluated at the last index,
under IEEE float semantics: `rs = avg_gain / avg_loss` is `inf` when
`avg_loss = 0 < avg_gain` (so `rsi = 100 - 100/(1+inf) = 100`) and `NaN`
when both averages vanish (`none`; every comparison against NaN is false). -/
def rsiLast (period : ℕ) (closes : List ℚ) : Option ℚ :=
  let ds := priceDeltas closes
  let gains := ds.map (fun d => if d > 0 then d else 0)
  let losses := ds.map (fun d => if d < 0 then -d else 0)
  let avg_gain := rollingMeanLast period gains
  let avg_loss := rollingMeanLast period losses
  if avg_loss = 0 then
    if avg_gain = 0 then none else some 100
  else
    some (100 - 100 / (1 + avg_gain / avg_loss))

/-- `RSIStrategy.generate_signal` (lines 150-182);
`required_candles = period + 10` (line 139). -/
def rsiGenerateSignal (period : ℕ) (oversold overbought : ℚ) (closes : List ℚ)
    (symbol : String) (now : ℤ) : Option TradeSignal :=
  if closes.length < period + 10 then none
  else
    let current_price := lastElem closes
    (rsiLast period closes).elim none
      (fun current_rsi =>
        if current_rsi < oversold then
          some { symbol := symbol, action := .buy, price := current_price, quantity := 0,
                 strategy := "rsi_oversold", confidence := 3/5, timestamp := now }
        else if current_rsi > overbought then
          some { symbol := symbol, action := .sell, price := current_price, quantity := 0,
                 strategy := "rsi_oversold", confidence := 3/5, timestamp := now }
        else none)

/-- One window of `core_engine.py`'s `identify_fair_value_gaps`
(lines 197-226): here the bullish gap size is
`(current.low - prev2.high) / prev2.close` and `gap_high = current.low`
(unlike the enhanced variant). -/
def gapAtCore (min_gap_size : ℚ) (prev2 prev1 current : Candle) : List Gap :=
  if current.low > prev2.high ∧ prev1.low > prev2.high then
    let gap_size := (current.low - prev2.high) / prev2.close
    if gap_size ≥ min_gap_size then
      [{ bullish := true, gap_low := prev2.high, gap_high := current.low,
         gap_size := gap_size, ts := current.ts, filled := false }]
    else []
  else if current.high < prev2.low ∧ prev1.high < prev2.low then
    let gap_size := (prev2.low - current.high) / prev2.close
    if gap_size ≥ min_gap_size then
      [{ bullish := false, gap_low := current.high, gap_high := prev2.low,
         gap_size := gap_size, ts := current.ts, filled := false }]
    else []
  else []

/-- `core_engine.py` `identify_fair_value_gaps` (lines 193-228): windows
`(df[i-2], df[i-1], df[i])` for `i` in `range(2, len(df) - 1)` — the final
row is never the window's `current`. -/
def identifyFairValueGapsCore (min_gap_size : ℚ) : List Candle → List Gap
  | p2 :: p1 :: c :: rest =>
      if rest.isEmpty then []
      else gapAtCore min_gap_size p2 p1 c
        ++ identifyFairValueGapsCore min_gap_size (p1 :: c :: rest)
  | _ => []

/-- The `for gap in gaps[-3:]` loop of `core_engine.py`'s
`generate_signal` (lines 243-275). -/
def fvgCoreLoop (symbol : String) (now : ℤ) (current_price current_high current_low : ℚ) :
    List Gap → Option TradeSignal
  | [] => none
  | g :: rest =>
      if g.filled then fvgCoreLoop symbol now current_price current_high current_low rest
      else if g.bullish ∧ current_low ≤ g.gap_high ∧ current_price > g.gap_low then
        some { symbol := symbol, action := .sell, price := current_price, quantity := 0,
               strategy := "fair_value_gap", confidence := 3/4, timestamp := now }
      else if g.bullish = false ∧ current_high ≥ g.gap_low ∧ current_price < g.gap_high then
        some { symbol := symbol, action := .buy, price := current_price, quantity := 0,
               strategy := "fair_value_gap", confidence := 3/4, timestamp := now }
      else fvgCoreLoop symbol now current_price current_high current_low rest

/-- `core_engine.py` `FairValueGapStrategy.generate_signal` (lines 230-277);
`required_candles = lookback_period + 5` (line 191). -/
def fvgCoreGenerateSignal (lookback_period : ℕ) (min_gap_size : ℚ) (df : List Candle)
    (symbol : String) (now : ℤ) : Option TradeSignal :=
  if df.length < lookback_period + 5 then none
  else
    let gaps := identifyFairValueGapsCore min_gap_size df
    if gaps.isEmpty then none
    else
      fvgCoreLoop symbol now (lastClose df) (lastHigh df) (lastLow df)
        (gaps.drop (gaps.length - 3))

/-- Weighted numerator and denominator of pandas
`ewm(span).mean()` (`adjust=True`) on a most-recent-first list:
`(Σ (1-α)^i x_i, Σ (1-α)^i)`. -/
def ewmNumDen (alpha : ℚ) : List ℚ → ℚ × ℚ
  | [] => (0, 0)
  | x :: rest =>
      let nd := ewmNumDen alpha rest
      (x + (1 - alpha) * nd.1, 1 + (1 - alpha) * nd.2)

/-- `ewm(span).mean()` at one index, the input being the prefix up to it. -/
def ewmAt (alpha : ℚ) (xs : List ℚ) : ℚ :=
  let nd := ewmNumDen alpha xs.reverse
  nd.1 / nd.2

/-- The full `ewm(span=s).mean()` column; `alpha = 2 / (span + 1)`. -/
def ewmMean (span : ℕ) (xs : List ℚ) : List ℚ :=
  let alpha : ℚ := 2 / (span + 1)
  (List.range xs.length).map (fun t => ewmAt alpha (xs.take (t + 1)))

/-- `MACDStrategy.calculate_macd` (lines 289-297):
`(macd_line, signal_line, histogram)`. -/
def calculateMacd (fast_period slow_period signal_period : ℕ) (closes : List ℚ) :
    List ℚ × List ℚ × List ℚ :=
  let ema_fast := ewmMean fast_period closes
  let ema_slow := ewmMean slow_period closes
  let macd_line := List.zipWith (fun a b => a - b) ema_fast ema_slow
  let signal_line := ewmMean signal_period macd_line
  let histogram := List.zipWith (fun a b => a - b) macd_line signal_line
  (macd_line, signal_line, histogram)

/-- `MACDStrategy.generate_signal` (lines 299-335);
`required_candles = slow_period + signal_period + 5` (line 287). -/
def macdGenerateSignal (fast_period slow_period signal_period : ℕ) (closes : List ℚ)
    (symbol : String) (now : ℤ) : Option TradeSignal :=
  if closes.length < slow_period + signal_period + 5 then none
  else
    let msh := calculateMacd fast_period slow_period signal_period closes
    let macd := msh.1
    let signal := msh.2.1
    let current_macd := lastElem macd
    let current_signal := lastElem signal
    let prev_macd := lastElem macd.dropLast
    let prev_signal := lastElem signal.dropLast
    let current_price := lastElem closes
    if prev_macd ≤ prev_signal ∧ current_macd > current_signal ∧ current_macd < 0 then
      some { symbol := symbol, action := .buy, price := current_price, quantity := 0,
             strategy := "macd", confidence := 7/10, timestamp := now }
    else if prev_macd ≥ prev_signal ∧ current_macd < current_signal ∧ current_macd > 0 then
      some { symbol := symbol, action := .sell, price := current_price, quantity := 0,
             strategy := "macd", confidence := 7/10, timestamp := now }
    else none

/-- Sample variance (`ddof = 1`, as in pandas `rolling(...).std()`) of the
last `w` entries. -/
def sampleVarLast (w : ℕ) (xs : List ℚ) : ℚ :=
  let window := lastN w xs
  let mean := window.sum / w
  (window.map (fun x => (x - mean) ^ 2)).sum / (w - 1 : ℕ)

/-- `BollingerBandsStrategy.generate_signal` (lines 355-392);
`required_candles = period + 5` (line 344).  The numeric square root of
`rolling(...).std()` has no exact rational value, so it is abstracted as
the function parameter `sqrtFn` applied to the sample variance. -/
def bollingerGenerateSignal (sqrtFn : ℚ → ℚ) (period : ℕ) (std_dev : ℚ)
    (closes : List ℚ) (symbol : String) (now : ℤ) : Option TradeSignal :=
  if closes.length < period + 5 then none
  else
    let current_sma := rollingMeanLast period closes
    let current_std := sqrtFn (sampleVarLast period closes)
    let current_upper := current_sma + current_std * std_dev
    let current_lower := current_sma - current_std * std_dev
    let prev_sma := rollingMeanLast period closes.dropLast
    let prev_std := sqrtFn (sampleVarLast period closes.dropLast)
    let prev_upper := prev_sma + prev_std * std_dev
    let prev_lower := prev_sma - prev_std * std_dev
    let current_price := lastElem closes
    let prev_price := lastElem closes.dropLast
    if prev_price ≤ prev_lower ∧ current_price > current_lower then
      some { symbol := symbol, action := .buy, price := current_price, quantity := 0,
             strategy := "bollinger_bands", confidence := 13/20, timestamp := now }
    else if prev_price ≥ prev_upper ∧ current_price < current_upper then
      some { symbol := symbol, action := .sell, price := current_price, quantity := 0,
             strategy := "bollinger_bands", confidence := 13/20, timestamp := now }
    else none

/-! ### Order placement and signal execution (`core_engine.py`, lines 496-715) -/

/-- The order dict handled by `place_order` / `execute_signal`.  Only the
fields the code reads or builds are modelled; `timestamp` is the POSIX time
behind the simulated order's `isoformat()` string. -/
structure Order where
  id : String
  symbol : String
  side : String
  amount : ℚ
  price : Option ℚ
  status : String
  timestamp : ℤ
  info : String
  deriving DecidableEq, Repr

/-- The simulated order dict of `place_order`'s safety branch
(lines 504-514). -/
def simulatedOrder (symbol side : String) (amount : ℚ) (price : Option ℚ)
    (now : ℤ) : Order :=
  { id := "SIMULATED_ORDER_" ++ toString now, symbol := symbol, side := side,
    amount := amount, price := price, status := "SIMULATED", timestamp := now,
    info := "This is a simulated order - no real trade executed" }

/-- `ExchangeConnector.place_order` (lines 496-531).  The network call of
the live branch is abstracted: `real_result` is what
`create_limit_order` / `create_market_order` would return (`none` for the
empty dict of the `except` path).  The second component records whether a
real order placement was attempted on the exchange.  The safety branch
fires only for `sandbox` **and** a Coinbase-family exchange (line 500). -/
def placeOrder (exchange_name : String) (sandbox : Bool) (symbol side : String)
    (amount : ℚ) (price : Option ℚ) (now : ℤ) (real_result : Option Order) :
    Option Order × Bool :=
  if sandbox ∧ (exchange_name = "coinbase" ∨ exchange_name = "coinbaseadvanced") then
    (some (simulatedOrder symbol side amount price now), false)
  else
    (real_result, true)

/-- A `trade_record` dict appended to `self.trade_history`
(lines 698-711). -/
structure TradeRecord where
  timestamp : ℤ
  symbol : String
  action : String
  price : ℚ
  quantity : ℚ
  strategy : String
  order_id : String
  position_id : String
  stop_loss : ℚ
  take_profit : ℚ
  risk_settings : RiskSettings
  deriving DecidableEq, Repr

/-- The bot state `execute_signal` touches: the risk manager and
`self.trade_history`.  `save_positions` persists `rm.positions` verbatim,
so the persisted snapshot is determined by this state. -/
structure ExecState where
  rm : RMState
  trade_history : List TradeRecord
  deriving DecidableEq, Repr

/-- The stop-loss price `execute_signal` derives from the signal
(lines 651-656). -/
def stopLossPriceOf (st : ExecState) (signal : TradeSignal) : ℚ :=
  if signal.action.val = "buy" then
    signal.price * (1 - (effectiveSettings st.rm).default_stop_loss / 100)
  else
    signal.price * (1 + (effectiveSettings st.rm).default_stop_loss / 100)

/-- The take-profit price `execute_signal` derives from the signal. -/
def takeProfitPriceOf (st : ExecState) (signal : TradeSignal) : ℚ :=
  if signal.action.val = "buy" then
    signal.price * (1 + (effectiveSettings st.rm).default_take_profit / 100)
  else
    signal.price * (1 - (effectiveSettings st.rm).default_take_profit / 100)

/-- The position size `execute_signal` requests (lines 658-663). -/
def positionSizeOf (st : ExecState) (signal : TradeSignal) (total_balance : ℚ) : ℚ :=
  calculatePositionSize st.rm signal.price total_balance (some (stopLossPriceOf st signal))

/-- The `Position` object `execute_signal` creates for tracking
(lines 678-689). -/
def positionOf (st : ExecState) (signal : TradeSignal) (exchange_name : String)
    (now : ℤ) (total_balance : ℚ) : Position :=
  mkPosition
    { symbol := signal.symbol, side := signal.action.val,
      size := positionSizeOf st signal total_balance, entry_price := signal.price,
      current_price := signal.price, entry_time := now,
      stop_loss := some (stopLossPriceOf st signal),
      take_profit := some (takeProfitPriceOf st signal),
      exchange := exchange_name }

/-- The `trade_record` dict `execute_signal` appends (lines 698-711); its
only dependence on the order is `order.get('id')`. -/
def recordOf (st : ExecState) (signal : TradeSignal) (exchange_name : String)
    (now : ℤ) (total_balance : ℚ) (o : Order) : TradeRecord :=
  { timestamp := signal.timestamp, symbol := signal.symbol,
    action := signal.action.val, price := signal.price,
    quantity := positionSizeOf st signal total_balance, strategy := signal.strategy,
    order_id := o.id,
    position_id := (positionOf st signal exchange_name now total_balance).position_id,
    stop_loss := stopLossPriceOf st signal, take_profit := takeProfitPriceOf st signal,
    risk_settings := effectiveSettings st.rm }

/-- `TradingBot.execute_signal` (lines 621-715).  Abstracted inputs:
`exchange_known` (`exchange_name in self.exchanges`), `balance_total`
(`none` when the balance fetch returned a falsy dict), `now` for
`datetime.now()`, and `real_result` for the live exchange's response.
Returns the new state, whether a real order placement was attempted, and
the order dict used for bookkeeping. -/
def executeSignal (st : ExecState) (signal : TradeSignal) (exchange_name : String)
    (sandbox : Bool) (exchange_known : Bool) (balance_total : Option ℚ) (now : ℤ)
    (real_result : Option Order) : ExecState × Bool × Option Order :=
  if exchange_known = false then (st, false, none)
  else
    balance_total.elim (st, false, none)
      (fun total_balance =>
        if total_balance ≤ 0 then (st, false, none)
        else if (canOpenNewPosition st.rm total_balance).1 = false then (st, false, none)
        else if positionSizeOf st signal total_balance ≤ 0 then (st, false, none)
        else
          let pr := placeOrder exchange_name sandbox signal.symbol signal.action.val
            (positionSizeOf st signal total_balance) none now real_result
          pr.1.elim (st, pr.2, none)
            (fun o =>
              ({ rm := addPosition st.rm (positionOf st signal exchange_name now total_balance)
                 trade_history := st.trade_history
                   ++ [recordOf st signal exchange_name now total_balance o] },
               pr.2, some o)))

/-! ### The worker registry of `app.py` (`/bot/start`, lines 495-661) -/

/-- A worker thread handle; `alive` is `thread.is_alive()`. -/
structure BotThread where
  thread_id : ℕ
  alive : Bool
  deriving DecidableEq, Repr

/-- The module-level registries `user_bots` and `user_bot_threads`, as
per-principal maps (one slot per user id). -/
structure Registry where
  user_bots : String → Option ℕ
  user_bot_threads : String → Option BotThread

/-- The JSON outcome of the `/bot/start` route together with the registry
it leaves behind. -/
structure StartOutcome where
  registry : Registry
  success : Bool
  error : Option String
  http_status : ℕ

/-- The guard of `start_bot` (line 503):
`user_id in user_bots and user_bot_threads.get(user_id) and
user_bot_threads[user_id].is_alive()`. -/
def hasLiveWorker (reg : Registry) (user_id : String) : Bool :=
  (reg.user_bots user_id).isSome &&
    (match reg.user_bot_threads user_id with
     | some t => t.alive
     | none => false)

/-- `start_bot` (lines 495-661).  The request-dependent facts are abstracted
as inputs: an active subscription, the number of stored API keys, an active
bot config that parses, and the outcome of the test analysis cycle.  On
success the bot is stored and a fresh live thread handle registered. -/
def startBot (reg : Registry) (user_id : String) (subscription_active : Bool)
    (api_key_count : ℕ) (has_active_config config_parses test_cycle_ok : Bool)
    (new_bot : ℕ) (new_thread : BotThread) : StartOutcome :=
  if hasLiveWorker reg user_id then
    { registry := reg, success := false, error := some "Bot is already running",
      http_status := 400 }
  else if subscription_active = false then
    { registry := reg, success := false, error := some "Active subscription required",
      http_status := 403 }
  else if api_key_count = 0 then
    { registry := reg, success := false,
      error := some "No API keys configured. Please add your exchange API keys in Settings.",
      http_status := 400 }
  else if has_active_config = false then
    { registry := reg, success := false,
      error := some "No bot configuration found. Please configure your strategies in Settings.",
      http_status := 400 }
  else if config_parses = false then
    { registry := reg, success := false, error := some "Invalid bot configuration",
      http_status := 400 }
  else if test_cycle_ok = false then
    { registry := reg, success := false, error := some "Bot test failed",
      http_status := 500 }
  else
    { registry :=
        { user_bots := fun u => if u = user_id then some new_bot else reg.user_bots u
          user_bot_threads := fun u =>
            if u = user_id then some new_thread else reg.user_bot_threads u }
      success := true, error := none, http_status := 200 }

/-! ### Shared lemmas about the position table -/

theorem pmLookup_pmSet_self (m : PositionMap) (pid : String) (v : Position) :
    pmLookup (pmSet m pid v) pid = some v := by
  induction m with
  | nil => simp [pmSet, pmLookup]
  | cons kv rest ih =>
      obtain ⟨k, v0⟩ := kv
      by_cases h : k = pid
      · simp [pmSet, pmLookup, h]
      · simp [pmSet, pmLookup, h, ih]

/-! ### Concrete states used by witnesses and counterexamples -/

/-- A BUY position of size 1 opened at 100, with explicit id `BTC1`. -/
def posBtc : Position :=
  mkPosition { symbol := "BTC", side := "buy", size := 1, entry_price := 100,
               current_price := 100, entry_time := 0, position_id := "BTC1" }

/-- A second BUY position of size 1 opened at 100, with explicit id `ETH1`. -/
def posEth : Position :=
  mkPosition { symbol := "ETH", side := "buy", size := 1, entry_price := 100,
               current_price := 100, entry_time := 1, position_id := "ETH1" }

/-- A third BUY position, with explicit id `SOL1`. -/
def posSol : Position :=
  mkPosition { symbol := "SOL", side := "buy", size := 1, entry_price := 100,
               current_price := 100, entry_time := 2, position_id := "SOL1" }

/-- A basic-tier risk manager whose custom settings pin
`max_position_size = 5` and `default_stop_loss = 2`, the percentages of
the position-sizing example. -/
def sizingState : RMState :=
  { freshRiskManager "user1" "basic" with
    custom_settings := { max_position_size := some 5, default_stop_loss := some 2 } }

/-- A fresh basic-tier risk manager carrying `daily_pnl = 50`. -/
def pnlState : RMState :=
  { freshRiskManager "user1" "basic" with daily_pnl := 50 }

/-- A basic-tier risk manager holding three open positions (the tier's
`max_open_positions`). -/
def fullState : RMState :=
  addPosition (addPosition (addPosition (freshRiskManager "user1" "basic") posBtc) posEth) posSol

/-! ### C1 — closing freezes `realized_pnl` -/

/-- C1: for every position in the table, after
`close_position(position_id, close_price)` the stored position's
`realized_pnl` equals the `unrealized_pnl` computed at the close price, its
status is CLOSED, and any later `update_position_price` on the same id
leaves `realized_pnl` and the CLOSED status untouched. -/
theorem close_position_freezes_realized_pnl (s : RMState) (pid : String) (cp : ℚ)
    (t : Option ℤ) (p : Position) (h : pmLookup s.positions pid = some p) :
    ∃ q, pmLookup (closePosition s pid cp t).positions pid = some q ∧
      q.realized_pnl = (updateCurrentPrice cp p).unrealized_pnl ∧
      q.status = PositionStatus.closed ∧
      ∀ price2 : ℚ, ∃ r,
        pmLookup (updatePositionPrice (closePosition s pid cp t) pid price2).positions pid
            = some r ∧
          r.realized_pnl = q.realized_pnl ∧ r.status = PositionStatus.closed := by
  simp only [closePosition, h, Option.elim_some]
  refine ⟨_, pmLookup_pmSet_self _ _ _, rfl, rfl, ?_⟩
  intro price2
  simp only [updatePositionPrice, pmLookup_pmSet_self, Option.elim_some]
  exact ⟨_, rfl, rfl, rfl⟩

/-- Witness for C1: open BUY size 1 at 100, close at 110. -/
theorem close_position_freezes_realized_pnl_witness :
    pmLookup (addPosition (freshRiskManager "user1" "basic") posBtc).positions "BTC1"
        = some posBtc ∧
      ∃ q, pmLookup (closePosition (addPosition (freshRiskManager "user1" "basic") posBtc)
            "BTC1" 110 (some 0)).positions "BTC1" = some q ∧
        q.realized_pnl = (updateCurrentPrice 110 posBtc).unrealized_pnl ∧
        q.status = PositionStatus.closed ∧
        ∀ price2 : ℚ, ∃ r,
          pmLookup (updatePositionPrice (closePosition
              (addPosition (freshRiskManager "user1" "basic") posBtc) "BTC1" 110 (some 0))
              "BTC1" price2).positions "BTC1" = some r ∧
            r.realized_pnl = q.realized_pnl ∧ r.status = PositionStatus.closed :=
  ⟨rfl, close_position_freezes_realized_pnl _ "BTC1" 110 (some 0) posBtc rfl⟩

/-! ### C10 — operations on an unknown position id are no-ops -/

/-- C10: `update_position_price` and `close_position` on an id absent from
the table raise nothing and return the state unchanged (table, `daily_pnl`
and `daily_trade_count` included). -/
theorem missing_position_id_is_noop (s : RMState) (pid : String) (price : ℚ)
    (t : Option ℤ) (h : pmLookup s.positions pid = none) :
    updatePositionPrice s pid price = s ∧ closePosition s pid price t = s := by
  constructor
  · simp only [updatePositionPrice, h, Option.elim_none]
  · simp only [closePosition, h, Option.elim_none]

/-- Witness for C10 at a concrete state holding one position. -/
theorem missing_position_id_is_noop_witness :
    pmLookup (addPosition (freshRiskManager "user1" "basic") posBtc).positions "nope" = none ∧
      (updatePositionPrice (addPosition (freshRiskManager "user1" "basic") posBtc) "nope" 42
          = addPosition (freshRiskManager "user1" "basic") posBtc ∧
        closePosition (addPosition (freshRiskManager "user1" "basic") posBtc) "nope" 42 (some 3)
          = addPosition (freshRiskManager "user1" "basic") posBtc) :=
  ⟨rfl, missing_position_id_is_noop _ "nope" 42 (some 3) rfl⟩

/-! ### C3 — daily counters -/

/-- Counterexample to C3 as stated: closing positions on two consecutive
calendar days (close times 0 and 86400 seconds) accumulates `daily_pnl`
across the date boundary — the second day ends at 10 + 5 = 15, not at the
5 a reset would leave. -/
theorem daily_pnl_not_reset_on_new_date :
    (closePosition
        (closePosition
          (addPosition (addPosition (freshRiskManager "user1" "basic") posBtc) posEth)
          "BTC1" 110 (some 0))
        "ETH1" 105 (some 86400)).daily_pnl = 15 ∧
      ¬ (closePosition
          (closePosition
            (addPosition (addPosition (freshRiskManager "user1" "basic") posBtc) posEth)
            "BTC1" 110 (some 0))
          "ETH1" 105 (some 86400)).daily_pnl = 5 := by
  simp only [closePosition, addPosition, freshRiskManager, posBtc, posEth, mkPosition,
    updateCurrentPrice, pmSet, pmLookup, String.reduceEq, reduceIte,
    Option.elim_some, Option.elim_none]
  norm_num

/-- C3 amended: `daily_pnl` and `daily_trade_count` start at zero and are
never reset — `close_position` ignores its close time entirely, so no
operation observes the calendar date; until then `close_position` adds the
realized PnL into `daily_pnl` (leaving the trade count alone) and
`add_position` increments `daily_trade_count` (leaving `daily_pnl` alone). -/
theorem daily_counters_accumulate_without_reset :
    (∀ (s : RMState) (pid : String) (cp : ℚ) (t1 t2 : Option ℤ),
        closePosition s pid cp t1 = closePosition s pid cp t2) ∧
      (∀ u tier : String,
        (freshRiskManager u tier).daily_pnl = 0 ∧
          (freshRiskManager u tier).daily_trade_count = 0) ∧
      (∀ (s : RMState) (p : Position),
        (addPosition s p).daily_trade_count = s.daily_trade_count + 1 ∧
          (addPosition s p).daily_pnl = s.daily_pnl) ∧
      (∀ (s : RMState) (pid : String) (cp : ℚ) (t : Option ℤ) (p : Position),
        pmLookup s.positions pid = some p →
          (closePosition s pid cp t).daily_pnl
              = s.daily_pnl + (updateCurrentPrice cp p).unrealized_pnl ∧
            (closePosition s pid cp t).daily_trade_count = s.daily_trade_count) := by
  refine ⟨fun s pid cp t1 t2 => rfl, fun u tier => ⟨rfl, rfl⟩,
    fun s p => ⟨rfl, rfl⟩, fun s pid cp t p h => ?_⟩
  simp [closePosition, h, Option.elim_some]

/-- Witness for C3 (amended): the accumulation facts at a concrete state. -/
theorem daily_counters_accumulate_without_reset_witness :
    pmLookup (addPosition (freshRiskManager "user1" "basic") posBtc).positions "BTC1"
        = some posBtc ∧
      ((closePosition (addPosition (freshRiskManager "user1" "basic") posBtc)
            "BTC1" 110 (some 7)).daily_pnl
          = (addPosition (freshRiskManager "user1" "basic") posBtc).daily_pnl
              + (updateCurrentPrice 110 posBtc).unrealized_pnl ∧
        (closePosition (addPosition (freshRiskManager "user1" "basic") posBtc)
            "BTC1" 110 (some 7)).daily_trade_count
          = (addPosition (freshRiskManager "user1" "basic") posBtc).daily_trade_count) :=
  ⟨rfl,
   daily_counters_accumulate_without_reset.2.2.2
     (addPosition (freshRiskManager "user1" "basic") posBtc)
     "BTC1" 110 (some 7) posBtc rfl⟩

/-! ### C5 — position sizing -/

/-- Counterexample to C5 as stated: with the claim's percentages, a
supplied stop-loss price of 0 is ignored by the code (`if stop_loss_price
and stop_loss_price > 0`), so the result is the base size 5, while the
claim's formula `min(base, risk-based)` evaluates to 2. -/
theorem position_size_ignores_zero_stop_loss :
    calculatePositionSize sizingState 100 10000 (some 0) = 5 ∧
      min ((10000 : ℚ) * (5 / 100) / 100) ((10000 : ℚ) * (2 / 100) / |100 - 0|) = 2 ∧
      (5 : ℚ) ≠ 2 := by
  simp only [calculatePositionSize, sizingState, effectiveSettings, applyOverride,
    getTierRiskSettings, freshRiskManager, String.reduceEq, reduceIte,
    Option.elim_some, Option.elim_none, Option.getD_some, Option.getD_none]
  norm_num [min_def]

/-- C5 amended: with no stop-loss the result is the base size
`portfolio_value × max_position_size/100 / entry_price`; a supplied
**positive** stop-loss price caps it by
`portfolio_value × default_stop_loss/100 / |entry − stop|`; a supplied
non-positive stop-loss price is ignored.  In particular the
`entry=100, pv=10000, stop=95` example with percentages 5 and 2 gives
`min(5, 40) = 5`. -/
theorem calculate_position_size_caps (s : RMState) (entry pv : ℚ) :
    calculatePositionSize s entry pv none
        = pv * ((effectiveSettings s).max_position_size / 100) / entry ∧
      (∀ sl : ℚ, 0 < sl →
        calculatePositionSize s entry pv (some sl)
          = min (pv * ((effectiveSettings s).max_position_size / 100) / entry)
              (pv * ((effectiveSettings s).default_stop_loss / 100) / |entry - sl|)) ∧
      (∀ sl : ℚ, sl ≤ 0 →
        calculatePositionSize s entry pv (some sl)
          = pv * ((effectiveSettings s).max_position_size / 100) / entry) ∧
      calculatePositionSize sizingState 100 10000 (some 95) = 5 := by
  refine ⟨rfl, fun sl hsl => ?_, fun sl hsl => ?_, ?_⟩
  · simp only [calculatePositionSize, Option.elim_some]
    rw [if_pos ⟨ne_of_gt hsl, hsl⟩]
  · simp only [calculatePositionSize, Option.elim_some]
    rw [if_neg (fun hc => absurd hc.2 (not_lt.mpr hsl))]
  · simp only [calculatePositionSize, sizingState, effectiveSettings, applyOverride,
      getTierRiskSettings, freshRiskManager, String.reduceEq, reduceIte,
      Option.elim_some, Option.elim_none, Option.getD_some, Option.getD_none]
    norm_num [min_def]

/-- Witness for C5 (amended) at the claim's concrete inputs. -/
theorem calculate_position_size_caps_witness :
    (0 : ℚ) < 95 ∧
      calculatePositionSize sizingState 100 10000 (some 95)
        = min ((10000 : ℚ) * ((effectiveSettings sizingState).max_position_size / 100) / 100)
            ((10000 : ℚ) * ((effectiveSettings sizingState).default_stop_loss / 100)
              / |100 - 95|) :=
  ⟨by decide, (calculate_position_size_caps sizingState 100 10000).2.1 95 (by decide)⟩

/-! ### C6 — `can_open_new_position` -/

/-- Counterexample to C6 as stated: the code computes the daily-loss ratio
only when `portfolio_value > 0` (otherwise it uses 0), so with
`daily_pnl = 50` and `portfolio_value = −1000` the claim's raw ratio test
`daily_pnl/portfolio_value×100 ≤ −max_daily_loss_pct` holds (−5 ≤ −3) while
the code still answers `true` (the other two checks being benign). -/
theorem can_open_ignores_ratio_for_nonpositive_portfolio :
    (canOpenNewPosition pnlState (-1000)).1 = true ∧
      pnlState.daily_pnl / (-1000) * 100 ≤ -(effectiveSettings pnlState).max_daily_loss ∧
      (getOpenPositions pnlState).length < (effectiveSettings pnlState).max_open_positions ∧
      pnlState.daily_trade_count < (effectiveSettings pnlState).max_daily_trades := by
  have hif : ¬ ((-1000 : ℚ) > 0) := by norm_num
  refine ⟨?_, ?_, ?_, ?_⟩
  · simp only [canOpenNewPosition, getOpenPositions, effectiveSettings, applyOverride,
      getTierRiskSettings, pnlState, freshRiskManager, String.reduceEq, reduceIte,
      Option.getD_none, List.map_nil, List.filter_nil, List.length_nil]
    rw [if_neg hif]
    norm_num
  · simp only [pnlState, freshRiskManager, effectiveSettings, applyOverride,
      getTierRiskSettings, String.reduceEq, reduceIte, Option.getD_none]
    norm_num
  · simp only [pnlState, freshRiskManager, effectiveSettings, applyOverride,
      getTierRiskSettings, getOpenPositions, String.reduceEq, reduceIte, Option.getD_none,
      List.map_nil, List.filter_nil, List.length_nil]
    norm_num
  · simp only [pnlState, freshRiskManager, effectiveSettings, applyOverride,
      getTierRiskSettings, String.reduceEq, reduceIte, Option.getD_none]
    norm_num

/-- C6 amended: `can_open_new_position` rejects exactly when the
open-position count is ≥ `max_open_positions`, or the guarded daily-loss
ratio (taken as 0 unless `portfolio_value > 0`) is ≤ `−max_daily_loss`, or
`daily_trade_count` ≥ `max_daily_trades`; the checks run in that order and
the first failing check's reason is returned, `"OK"` otherwise. -/
theorem can_open_new_position_check_order (s : RMState) (pv : ℚ) :
    ((canOpenNewPosition s pv).1 = false ↔
        ((getOpenPositions s).length ≥ (effectiveSettings s).max_open_positions ∨
          (if pv > 0 then s.daily_pnl / pv * 100 else 0)
              ≤ -(effectiveSettings s).max_daily_loss ∨
          s.daily_trade_count ≥ (effectiveSettings s).max_daily_trades)) ∧
      ((getOpenPositions s).length ≥ (effectiveSettings s).max_open_positions →
        canOpenNewPosition s pv =
          (false, "Maximum open positions reached ("
            ++ toString (getOpenPositions s).length ++ "/"
            ++ toString (effectiveSettings s).max_open_positions ++ ")")) ∧
      (¬ (getOpenPositions s).length ≥ (effectiveSettings s).max_open_positions →
        (if pv > 0 then s.daily_pnl / pv * 100 else 0)
            ≤ -(effectiveSettings s).max_daily_loss →
        canOpenNewPosition s pv =
          (false, "Daily loss limit reached ("
            ++ toString (if pv > 0 then s.daily_pnl / pv * 100 else 0) ++ "%/"
            ++ toString (effectiveSettings s).max_daily_loss ++ "%)")) ∧
      (¬ (getOpenPositions s).length ≥ (effectiveSettings s).max_open_positions →
        ¬ (if pv > 0 then s.daily_pnl / pv * 100 else 0)
            ≤ -(effectiveSettings s).max_daily_loss →
        s.daily_trade_count ≥ (effectiveSettings s).max_daily_trades →
        canOpenNewPosition s pv =
          (false, "Daily trade limit reached (" ++ toString s.daily_trade_count ++ "/"
            ++ toString (effectiveSettings s).max_daily_trades ++ ")")) ∧
      (¬ (getOpenPositions s).length ≥ (effectiveSettings s).max_open_positions →
        ¬ (if pv > 0 then s.daily_pnl / pv * 100 else 0)
            ≤ -(effectiveSettings s).max_daily_loss →
        ¬ s.daily_trade_count ≥ (effectiveSettings s).max_daily_trades →
        canOpenNewPosition s pv = (true, "OK")) := by
  simp only [canOpenNewPosition]
  split_ifs with h1 h2 h3 <;> simp_all

/-- Witness for C6 (amended): with three open positions (the basic tier's
maximum) the rejection names the open-position cap; a fresh manager passes
with `"OK"`. -/
theorem can_open_new_position_check_order_witness :
    (getOpenPositions fullState).length ≥ (effectiveSettings fullState).max_open_positions ∧
      canOpenNewPosition fullState 10000 =
        (false, "Maximum open positions reached ("
          ++ toString (getOpenPositions fullState).length ++ "/"
          ++ toString (effectiveSettings fullState).max_open_positions ++ ")") ∧
      canOpenNewPosition (freshRiskManager "user1" "basic") 10000 = (true, "OK") :=
  have hfull : (getOpenPositions fullState).length
      ≥ (effectiveSettings fullState).max_open_positions := by
    simp only [getOpenPositions, fullState, addPosition, posBtc, posEth, posSol, mkPosition,
      updateCurrentPrice, pmSet, freshRiskManager, effectiveSettings, applyOverride,
      getTierRiskSettings, String.reduceEq, reduceIte, Option.getD_none]
    simp
  ⟨hfull,
   (can_open_new_position_check_order fullState 10000).2.1 hfull,
   (can_open_new_position_check_order (freshRiskManager "user1" "basic") 10000).2.2.2.2
     (by simp [getOpenPositions, freshRiskManager, effectiveSettings, applyOverride,
           getTierRiskSettings])
     (by norm_num [freshRiskManager, effectiveSettings, applyOverride, getTierRiskSettings])
     (by norm_num [freshRiskManager, effectiveSettings, applyOverride, getTierRiskSettings])⟩

/-! ### C9 — double start is rejected -/

/-- C9: when a principal already has a live worker (a stored bot and a
thread handle that is alive), a second `/bot/start` request returns the
"Bot is already running" error with HTTP 400, the registry is unchanged,
and the principal's single live handle is still the original one. -/
theorem start_bot_rejects_second_start (reg : Registry) (user : String)
    (sub : Bool) (keys : ℕ) (cfg parses test : Bool) (nb : ℕ) (nt : BotThread)
    (b : ℕ) (t : BotThread)
    (hb : reg.user_bots user = some b) (ht : reg.user_bot_threads user = some t)
    (halive : t.alive = true) :
    startBot reg user sub keys cfg parses test nb nt =
        { registry := reg, success := false, error := some "Bot is already running",
          http_status := 400 } ∧
      (startBot reg user sub keys cfg parses test nb nt).registry.user_bots user = some b ∧
      (startBot reg user sub keys cfg parses test nb nt).registry.user_bot_threads user
        = some t := by
  have hl : hasLiveWorker reg user = true := by
    simp [hasLiveWorker, hb, ht, halive]
  refine ⟨?_, ?_, ?_⟩ <;> simp [startBot, hl, hb, ht]

/-- A registry in which principal `alice` has a live worker. -/
def aliceRegistry : Registry :=
  { user_bots := fun u => if u = "alice" then some 1 else none
    user_bot_threads := fun u => if u = "alice" then some ⟨7, true⟩ else none }

/-- Witness for C9: starting `alice`'s bot again against `aliceRegistry`. -/
theorem start_bot_rejects_second_start_witness :
    aliceRegistry.user_bots "alice" = some 1 ∧
      aliceRegistry.user_bot_threads "alice" = some ⟨7, true⟩ ∧
      (startBot aliceRegistry "alice" true 1 true true true 2 ⟨8, true⟩ =
          { registry := aliceRegistry, success := false,
            error := some "Bot is already running", http_status := 400 } ∧
        (startBot aliceRegistry "alice" true 1 true true true 2
            ⟨8, true⟩).registry.user_bots "alice" = some 1 ∧
        (startBot aliceRegistry "alice" true 1 true true true 2
            ⟨8, true⟩).registry.user_bot_threads "alice" = some ⟨7, true⟩) :=
  ⟨rfl, rfl,
   start_bot_rejects_second_start aliceRegistry "alice" true 1 true true true 2 ⟨8, true⟩
     1 ⟨7, true⟩ rfl rfl rfl⟩

/-! ### C8 — short series yield no signal -/

/-- C8: every strategy guards on its required lookback first, so any series
shorter than it yields no signal (the enhanced FVG strategy returns its
`hold` dict with the state untouched) and nothing is evaluated that could
raise. -/
theorem short_series_yield_no_signal (fast_period slow_period period signal_period
      lookback_period : ℕ) (oversold overbought min_gap_size std_dev : ℚ)
    (sqrtFn : ℚ → ℚ) (closes : List ℚ) (df : List Candle) (cfg : FVGConfig)
    (state : List Gap) (symbol : String) (now : ℤ) :
    (closes.length < max fast_period slow_period + 5 →
        smaGenerateSignal fast_period slow_period closes symbol now = none) ∧
      (closes.length < period + 10 →
        rsiGenerateSignal period oversold overbought closes symbol now = none) ∧
      (df.length < lookback_period + 5 →
        fvgCoreGenerateSignal lookback_period min_gap_size df symbol now = none) ∧
      (closes.length < slow_period + signal_period + 5 →
        macdGenerateSignal fast_period slow_period signal_period closes symbol now = none) ∧
      (closes.length < period + 5 →
        bollingerGenerateSignal sqrtFn period std_dev closes symbol now = none) ∧
      (df.length < cfg.required_candles →
        generateSignals cfg state df =
          (state, { action := "hold", confidence := 0, reason := "insufficient_data" })) := by
  refine ⟨fun h => ?_, fun h => ?_, fun h => ?_, fun h => ?_, fun h => ?_, fun h => ?_⟩
  · simp only [smaGenerateSignal, if_pos h]
  · simp only [rsiGenerateSignal, if_pos h]
  · simp only [fvgCoreGenerateSignal, if_pos h]
  · simp only [macdGenerateSignal, if_pos h]
  · simp only [bollingerGenerateSignal, if_pos h]
  · simp only [generateSignals, if_pos h]

/-- Witness for C8: the default-parameter strategies on an empty series. -/
theorem short_series_yield_no_signal_witness :
    (([] : List ℚ).length < max 10 20 + 5 ∧ ([] : List Candle).length < 20 + 5) ∧
      smaGenerateSignal 10 20 [] "BTC/USDT" 0 = none ∧
      rsiGenerateSignal 14 30 70 [] "BTC/USDT" 0 = none ∧
      fvgCoreGenerateSignal 20 (1/500) [] "BTC/USDT" 0 = none ∧
      macdGenerateSignal 12 26 9 [] "BTC/USDT" 0 = none ∧
      bollingerGenerateSignal (fun x => x) 20 2 [] "BTC/USDT" 0 = none ∧
      generateSignals {} [] [] =
        (([] : List Gap),
          { action := "hold", confidence := 0, reason := "insufficient_data" }) :=
  have T := short_series_yield_no_signal 10 20 14 9 20 30 70 (1/500) 2 (fun x => x)
    [] [] {} [] "BTC/USDT" 0
  ⟨⟨by decide, by decide⟩, T.1 (by decide), T.2.1 (by decide), T.2.2.1 (by decide),
   (short_series_yield_no_signal 12 26 14 9 20 30 70 (1/500) 2 (fun x => x)
     [] [] {} [] "BTC/USDT" 0).2.2.2.1 (by decide),
   (short_series_yield_no_signal 10 20 20 9 20 30 70 (1/500) 2 (fun x => x)
     [] [] {} [] "BTC/USDT" 0).2.2.2.2.1 (by decide),
   T.2.2.2.2.2 (by decide)⟩

/-! ### C7 — RSI on strictly monotone series -/

theorem priceDeltas_length (c : List ℚ) : (priceDeltas c).length = c.length - 1 := by
  induction c with
  | nil => simp [priceDeltas]
  | cons a rest ih =>
      cases rest with
      | nil => simp [priceDeltas]
      | cons b r2 =>
          simp only [priceDeltas, List.length_cons] at ih ⊢
          omega

theorem priceDeltas_neg (c : List ℚ) (h : List.Chain' (fun a b => b < a) c) :
    ∀ d ∈ priceDeltas c, d < 0 := by
  induction c with
  | nil => simp [priceDeltas]
  | cons a rest ih =>
      cases rest with
      | nil => simp [priceDeltas]
      | cons b r2 =>
          rw [List.chain'_cons] at h
          intro d hd
          simp only [priceDeltas, List.mem_cons] at hd
          rcases hd with rfl | hd
          · linarith [h.1]
          · exact ih h.2 d hd

theorem priceDeltas_pos (c : List ℚ) (h : List.Chain' (fun a b => a < b) c) :
    ∀ d ∈ priceDeltas c, 0 < d := by
  induction c with
  | nil => simp [priceDeltas]
  | cons a rest ih =>
      cases rest with
      | nil => simp [priceDeltas]
      | cons b r2 =>
          rw [List.chain'_cons] at h
          intro d hd
          simp only [priceDeltas, List.mem_cons] at hd
          rcases hd with rfl | hd
          · linarith [h.1]
          · exact ih h.2 d hd

theorem rollingMeanLast_eq_zero (w : ℕ) (xs : List ℚ) (h : ∀ x ∈ xs, x = 0) :
    rollingMeanLast w xs = 0 := by
  unfold rollingMeanLast lastN
  rw [List.sum_eq_zero (fun x hx => h x (List.mem_of_mem_drop hx))]
  simp

theorem rollingMeanLast_pos (w : ℕ) (hw : 0 < w) (xs : List ℚ) (hlen : w ≤ xs.length)
    (h : ∀ x ∈ xs, 0 < x) : 0 < rollingMeanLast w xs := by
  unfold rollingMeanLast lastN
  apply div_pos
  · apply List.sum_pos
    · exact fun x hx => h x (List.mem_of_mem_drop hx)
    · have hlen2 : (xs.drop (xs.length - w)).length = w := by
        rw [List.length_drop]; omega
      intro hnil
      rw [hnil] at hlen2
      simp at hlen2
      omega
  · exact_mod_cast hw

/-- C7: on a strictly decreasing close series of sufficient length the
average gain is 0, so RSI = 0 and the RSI strategy emits a BUY with
confidence 0.6; on a strictly increasing series the average loss is 0, the
division saturates (IEEE `inf` semantics, no error) so RSI = 100 and a SELL
is emitted. -/
theorem rsi_saturates_on_monotone_series (period : ℕ) (hp : 0 < period)
    (closes : List ℚ) (symbol : String) (now : ℤ)
    (hlen : period + 10 ≤ closes.length) :
    (List.Chain' (fun a b => b < a) closes →
        rsiLast period closes = some 0 ∧
          rsiGenerateSignal period 30 70 closes symbol now =
            some { symbol := symbol, action := .buy, price := lastElem closes,
                   quantity := 0, strategy := "rsi_oversold", confidence := 3/5,
                   timestamp := now }) ∧
      (List.Chain' (fun a b => a < b) closes →
        rsiLast period closes = some 100 ∧
          rsiGenerateSignal period 30 70 closes symbol now =
            some { symbol := symbol, action := .sell, price := lastElem closes,
                   quantity := 0, strategy := "rsi_oversold", confidence := 3/5,
                   timestamp := now }) := by
  have hdlen : period ≤ (priceDeltas closes).length := by
    rw [priceDeltas_length]; omega
  constructor
  · intro hmono
    have hdneg := priceDeltas_neg closes hmono
    have hgain : rollingMeanLast period
        ((priceDeltas closes).map (fun d => if d > 0 then d else 0)) = 0 := by
      apply rollingMeanLast_eq_zero
      intro x hx
      obtain ⟨d, hd, rfl⟩ := List.mem_map.mp hx
      rw [if_neg (not_lt.mpr (le_of_lt (hdneg d hd)))]
    have hloss : 0 < rollingMeanLast period
        ((priceDeltas closes).map (fun d => if d < 0 then -d else 0)) := by
      apply rollingMeanLast_pos period hp
      · rw [List.length_map]; exact hdlen
      · intro x hx
        obtain ⟨d, hd, rfl⟩ := List.mem_map.mp hx
        rw [if_pos (hdneg d hd)]
        linarith [hdneg d hd]
    have hrsi : rsiLast period closes = some 0 := by
      simp only [rsiLast]
      rw [if_neg (ne_of_gt hloss), hgain]
      norm_num
    refine ⟨hrsi, ?_⟩
    simp only [rsiGenerateSignal]
    rw [if_neg (not_lt.mpr hlen), hrsi]
    simp only [Option.elim_some]
    rw [if_pos (by norm_num : (0 : ℚ) < 30)]
  · intro hmono
    have hdpos := priceDeltas_pos closes hmono
    have hloss : rollingMeanLast period
        ((priceDeltas closes).map (fun d => if d < 0 then -d else 0)) = 0 := by
      apply rollingMeanLast_eq_zero
      intro x hx
      obtain ⟨d, hd, rfl⟩ := List.mem_map.mp hx
      rw [if_neg (not_lt.mpr (le_of_lt (hdpos d hd)))]
    have hgain : 0 < rollingMeanLast period
        ((priceDeltas closes).map (fun d => if d > 0 then d else 0)) := by
      apply rollingMeanLast_pos period hp
      · rw [List.length_map]; exact hdlen
      · intro x hx
        obtain ⟨d, hd, rfl⟩ := List.mem_map.mp hx
        rw [if_pos (hdpos d hd)]
        exact hdpos d hd
    have hrsi : rsiLast period closes = some 100 := by
      simp only [rsiLast]
      rw [if_pos hloss, if_neg (ne_of_gt hgain)]
    refine ⟨hrsi, ?_⟩
    simp only [rsiGenerateSignal]
    rw [if_neg (not_lt.mpr hlen), hrsi]
    simp only [Option.elim_some]
    rw [if_neg (by norm_num : ¬ ((100 : ℚ) < 30)), if_pos (by norm_num : (100 : ℚ) > 70)]

/-- 20 strictly decreasing closes, 120 down to 101. -/
def decreasingCloses : List ℚ :=
  [120, 119, 118, 117, 116, 115, 114, 113, 112, 111,
   110, 109, 108, 107, 106, 105, 104, 103, 102, 101]

/-- 20 strictly increasing closes, 101 up to 120. -/
def increasingCloses : List ℚ :=
  [101, 102, 103, 104, 105, 106, 107, 108, 109, 110,
   111, 112, 113, 114, 115, 116, 117, 118, 119, 120]

/-- Witness for C7 with `period = 5` on 20 strictly monotone closes. -/
theorem rsi_saturates_on_monotone_series_witness :
    (0 < 5 ∧ 5 + 10 ≤ decreasingCloses.length ∧
        List.Chain' (fun a b : ℚ => b < a) decreasingCloses ∧
        List.Chain' (fun a b : ℚ => a < b) increasingCloses) ∧
      (rsiLast 5 decreasingCloses = some 0 ∧
        rsiGenerateSignal 5 30 70 decreasingCloses "BTC/USDT" 0 =
          some { symbol := "BTC/USDT", action := .buy, price := lastElem decreasingCloses,
                 quantity := 0, strategy := "rsi_oversold", confidence := 3/5,
                 timestamp := 0 }) ∧
      (rsiLast 5 increasingCloses = some 100 ∧
        rsiGenerateSignal 5 30 70 increasingCloses "BTC/USDT" 0 =
          some { symbol := "BTC/USDT", action := .sell, price := lastElem increasingCloses,
                 quantity := 0, strategy := "rsi_oversold", confidence := 3/5,
                 timestamp := 0 }) :=
  ⟨⟨by norm_num, by norm_num [decreasingCloses],
    by norm_num [decreasingCloses, List.chain'_cons, List.chain'_singleton],
    by norm_num [increasingCloses, List.chain'_cons, List.chain'_singleton]⟩,
   (rsi_saturates_on_monotone_series 5 (by norm_num) decreasingCloses "BTC/USDT" 0
     (by norm_num [decreasingCloses])).1
     (by norm_num [decreasingCloses, List.chain'_cons, List.chain'_singleton]),
   (rsi_saturates_on_monotone_series 5 (by norm_num) increasingCloses "BTC/USDT" 0
     (by norm_num [increasingCloses])).2
     (by norm_num [increasingCloses, List.chain'_cons, List.chain'_singleton])⟩

/-! ### C2 — signals near unfilled fair value gaps -/

theorem findGapSignal_append_of_no_trigger (price : ℚ) (l1 l2 : List Gap)
    (h : ∀ g ∈ l1, gapTriggers price g = false) :
    findGapSignal price (l1 ++ l2) = findGapSignal price l2 := by
  induction l1 with
  | nil => simp
  | cons g r ih =>
      simp only [List.cons_append, findGapSignal]
      rw [if_neg (by simp [h g (List.mem_cons_self g r)])]
      exact ih (fun g2 hg2 => h g2 (List.mem_cons_of_mem _ hg2))

/-- C2: on a sufficiently long series, when the current price is within 1%
of the midpoint of the first triggering unfilled gap in the strategy's
active-gap list, `generate_signals` returns that gap's signal: BUY for a
bullish gap, SELL for a bearish one, with confidence
`min(90, gap_size × 10000)`. -/
theorem fvg_signal_near_unfilled_gap (cfg : FVGConfig) (state : List Gap)
    (df : List Candle) (g : Gap) (l1 l2 : List Gap)
    (hlen : cfg.required_candles ≤ df.length)
    (hsplit : activeGapsAfter cfg state df = l1 ++ g :: l2)
    (hfirst : ∀ g2 ∈ l1, gapTriggers (lastClose df) g2 = false)
    (htrig : gapTriggers (lastClose df) g = true) :
    (generateSignals cfg state df).2 = gapSignal g ∧
      (generateSignals cfg state df).2.confidence = min 90 (g.gap_size * 10000) ∧
      (g.bullish = true → (generateSignals cfg state df).2.action = "buy") ∧
      (g.bullish = false → (generateSignals cfg state df).2.action = "sell") := by
  have hmain : (generateSignals cfg state df).2 = gapSignal g := by
    simp only [generateSignals]
    rw [if_neg (not_lt.mpr hlen), hsplit,
      findGapSignal_append_of_no_trigger _ _ _ hfirst]
    simp only [findGapSignal]
    rw [if_pos htrig]
    simp
  refine ⟨hmain, ?_, fun hb => ?_, fun hb => ?_⟩
  · rw [hmain]
    cases hb : g.bullish <;> simp [gapSignal, hb]
  · rw [hmain]; simp [gapSignal, hb]
  · rw [hmain]; simp [gapSignal, hb]

/-- A flat filler candle at price 100 for hour `i`. -/
def flatCandle (i : ℕ) : Candle :=
  { high := 501/5, low := 499/5, close := 100, ts := (i : ℚ)/24 }

/-- The candle two before the gap window's current one (`prev2`). -/
def fvgPrev2 : Candle := { high := 100, low := 99, close := 100, ts := 5/24 }

/-- The middle candle of the gap window (`prev1`): its low 102 sits above
`prev2`'s high 100, opening a 2% bullish gap. -/
def fvgPrev1 : Candle := { high := 103, low := 102, close := 205/2, ts := 6/24 }

/-- The final candle: low 101.5 keeps the gap unfilled (the 50% fill
boundary is 101) and close 101.6 is within 1% of the gap midpoint 101. -/
def fvgCurrent : Candle := { high := 102, low := 203/2, close := 508/5, ts := 7/24 }

/-- 8 hourly candles: 5 flat ones, then the bullish-gap window. -/
def c2Df : List Candle :=
  [flatCandle 0, flatCandle 1, flatCandle 2, flatCandle 3, flatCandle 4,
   fvgPrev2, fvgPrev1, fvgCurrent]

/-- A `FairValueGapStrategy(lookback_period=3)` configuration. -/
def c2Cfg : FVGConfig :=
  { lookback_period := 3, min_gap_size := 1/500, gap_fill_threshold := 1/2 }

/-- The unfilled bullish gap the strategy finds in `c2Df`. -/
def c2Gap : Gap :=
  { bullish := true, gap_low := 100, gap_high := 102, gap_size := 1/50,
    ts := 7/24, filled := false }

/-- Witness for C2: on `c2Df` the single active gap is `c2Gap`, the price
is within 1% of its midpoint, and a BUY with confidence
`min(90, 0.02 × 10000) = 90` is emitted. -/
theorem fvg_signal_near_unfilled_gap_witness :
    (c2Cfg.required_candles ≤ c2Df.length ∧
        activeGapsAfter c2Cfg [] c2Df = [] ++ c2Gap :: [] ∧
        gapTriggers (lastClose c2Df) c2Gap = true) ∧
      (generateSignals c2Cfg [] c2Df).2 = gapSignal c2Gap ∧
      (generateSignals c2Cfg [] c2Df).2.confidence = min 90 (c2Gap.gap_size * 10000) ∧
      (generateSignals c2Cfg [] c2Df).2.action = "buy" :=
  have hlen : c2Cfg.required_candles ≤ c2Df.length := by decide
  have hident : identifyFairValueGaps c2Cfg.min_gap_size [fvgPrev2, fvgPrev1, fvgCurrent]
      = [c2Gap] := by
    simp only [identifyFairValueGaps]
    norm_num [gapAt, fvgPrev2, fvgPrev1, fvgCurrent, c2Cfg, c2Gap]
  have hchecked : checkGapFills c2Cfg.gap_fill_threshold (lastClose c2Df) (lastHigh c2Df)
      (lastLow c2Df) [c2Gap] = [c2Gap] := by
    rw [show lastClose c2Df = 508/5 from rfl, show lastHigh c2Df = 102 from rfl,
      show lastLow c2Df = 203/2 from rfl]
    norm_num [checkGapFills, checkGapFill, c2Gap, c2Cfg]
  have hfilter : List.filter (fun g => decide (g.filled = false ∧ g.ts > lastTs c2Df - 7))
      [c2Gap] = [c2Gap] := by
    rw [show lastTs c2Df = 7/24 from rfl]
    norm_num [c2Gap]
  have hsplit : activeGapsAfter c2Cfg [] c2Df = [] ++ c2Gap :: [] := by
    simp only [activeGapsAfter]
    rw [show c2Df.drop (c2Df.length - c2Cfg.lookback_period)
        = [fvgPrev2, fvgPrev1, fvgCurrent] from rfl]
    rw [hident, List.nil_append, hchecked]
    simpa using hfilter
  have htrig : gapTriggers (lastClose c2Df) c2Gap = true := by
    rw [show lastClose c2Df = 508/5 from rfl]
    simp only [gapTriggers, c2Gap, decide_eq_true_eq]
    norm_num [abs_of_nonneg]
  have T := fvg_signal_near_unfilled_gap c2Cfg [] c2Df c2Gap [] [] hlen hsplit
    (by simp) htrig
  ⟨⟨hlen, hsplit, htrig⟩, T.1, T.2.1, T.2.2.1 rfl⟩

/-! ### C4 — sandbox execution -/

theorem placeOrder_sandbox_coinbase (name symbol side : String) (amount : ℚ)
    (price : Option ℚ) (now : ℤ) (r : Option Order)
    (hname : name = "coinbase" ∨ name = "coinbaseadvanced") :
    placeOrder name true symbol side amount price now r =
      (some (simulatedOrder symbol side amount price now), false) := by
  rcases hname with h | h <;> subst h <;> simp [placeOrder]

theorem placeOrder_live (name symbol side : String) (amount : ℚ)
    (price : Option ℚ) (now : ℤ) (r : Option Order) :
    placeOrder name false symbol side amount price now r = (r, true) := by
  simp [placeOrder]

/-- When the balance, risk and sizing checks pass, `execute_signal` is the
order placement followed by the (order-independent) bookkeeping. -/
theorem executeSignal_reaches_order (st : ExecState) (signal : TradeSignal)
    (name : String) (sandbox : Bool) (total : ℚ) (now : ℤ) (r : Option Order)
    (htotal : ¬ total ≤ 0)
    (hcan : (canOpenNewPosition st.rm total).1 = true)
    (hsize : ¬ positionSizeOf st signal total ≤ 0) :
    executeSignal st signal name sandbox true (some total) now r =
      (placeOrder name sandbox signal.symbol signal.action.val
          (positionSizeOf st signal total) none now r).1.elim
        (st, (placeOrder name sandbox signal.symbol signal.action.val
            (positionSizeOf st signal total) none now r).2, none)
        (fun o =>
          ({ rm := addPosition st.rm (positionOf st signal name now total)
             trade_history := st.trade_history ++ [recordOf st signal name now total o] },
           (placeOrder name sandbox signal.symbol signal.action.val
              (positionSizeOf st signal total) none now r).2, some o)) := by
  simp only [executeSignal, Option.elim_some]
  rw [if_neg (by simp), if_neg htotal, if_neg (by simp [hcan]), if_neg hsize]

/-- The trading-bot state before executing a signal: a fresh basic-tier
risk manager and empty trade history. -/
def execSt0 : ExecState := { rm := freshRiskManager "user1" "basic", trade_history := [] }

/-- A BUY signal at price 100. -/
def sig0 : TradeSignal :=
  { symbol := "BTC/USDT", action := .buy, price := 100, quantity := 0,
    strategy := "sma_crossover", confidence := 7/10, timestamp := 0 }

/-- What the live exchange answers for the order. -/
def realOrder0 : Order :=
  { id := "LIVE-1", symbol := "BTC/USDT", side := "buy", amount := 5, price := none,
    status := "closed", timestamp := 0, info := "" }

theorem canOpen_fresh_10000 :
    (canOpenNewPosition (freshRiskManager "user1" "basic") 10000).1 = true := by
  norm_num [canOpenNewPosition, getOpenPositions, freshRiskManager, effectiveSettings,
    applyOverride, getTierRiskSettings, String.reduceEq, reduceIte, Option.getD_none]

theorem positionSizeOf_concrete : positionSizeOf execSt0 sig0 10000 = 5 := by
  simp only [positionSizeOf, stopLossPriceOf, calculatePositionSize, execSt0, sig0,
    OrderType.val, effectiveSettings, applyOverride, getTierRiskSettings, freshRiskManager,
    String.reduceEq, reduceIte, Option.elim_some, Option.getD_none]
  norm_num [min_def]

/-- Counterexample to C4 as stated: a connection flagged `sandbox` to the
`binance` exchange does **not** produce a simulated fill — `place_order`
only simulates for the Coinbase family, so the call routes to real order
placement (`placed = true`) and the bookkeeping records the live exchange's
order, whose status is not SIMULATED. -/
theorem sandbox_binance_places_real_order :
    placeOrder "binance" true sig0.symbol sig0.action.val
        (positionSizeOf execSt0 sig0 10000) none 0 (some realOrder0)
      = (some realOrder0, true) ∧
      realOrder0.status = "closed" ∧ ¬ realOrder0.status = "SIMULATED" ∧
      (executeSignal execSt0 sig0 "binance" true true (some 10000) 0
          (some realOrder0)).2.1 = true ∧
      (executeSignal execSt0 sig0 "binance" true true (some 10000) 0
          (some realOrder0)).2.2 = some realOrder0 := by
  have hpo : placeOrder "binance" true sig0.symbol sig0.action.val
      (positionSizeOf execSt0 sig0 10000) none 0 (some realOrder0)
      = (some realOrder0, true) := by
    simp [placeOrder]
  have hrun := executeSignal_reaches_order execSt0 sig0 "binance" true 10000 0
    (some realOrder0) (by norm_num) canOpen_fresh_10000
    (by rw [positionSizeOf_concrete]; norm_num)
  rw [hpo] at hrun
  refine ⟨hpo, rfl, by decide, ?_, ?_⟩ <;> rw [hrun] <;> rfl

/-- C4 amended: when the connection is flagged sandbox **and** the exchange
is in the Coinbase family, an allowed signal yields a simulated fill — a
synthetic `SIMULATED_ORDER_…` id, status SIMULATED, no real order placement
attempted — and the bookkeeping is that of a real fill on the live path:
the risk-manager state (position creation, `add_position`, hence the
persisted table) is identical to the live run's, and the trade-history
record differs from the live run's only in its `order_id`. -/
theorem sandbox_coinbase_fill_matches_live_bookkeeping
    (st : ExecState) (signal : TradeSignal) (name : String) (now : ℤ)
    (total : ℚ) (real_o : Order)
    (hname : name = "coinbase" ∨ name = "coinbaseadvanced")
    (htotal : 0 < total)
    (hcan : (canOpenNewPosition st.rm total).1 = true)
    (hsize : 0 < positionSizeOf st signal total) :
    (executeSignal st signal name true true (some total) now none).2.1 = false ∧
      (executeSignal st signal name true true (some total) now none).2.2
        = some (simulatedOrder signal.symbol signal.action.val
            (positionSizeOf st signal total) none now) ∧
      (simulatedOrder signal.symbol signal.action.val
          (positionSizeOf st signal total) none now).status = "SIMULATED" ∧
      (simulatedOrder signal.symbol signal.action.val
          (positionSizeOf st signal total) none now).id
        = "SIMULATED_ORDER_" ++ toString now ∧
      (executeSignal st signal name false true (some total) now (some real_o)).2.1 = true ∧
      (executeSignal st signal name true true (some total) now none).1.rm
        = (executeSignal st signal name false true (some total) now (some real_o)).1.rm ∧
      (executeSignal st signal name true true (some total) now none).1.trade_history
        = st.trade_history ++ [recordOf st signal name now total
            (simulatedOrder signal.symbol signal.action.val
              (positionSizeOf st signal total) none now)] ∧
      (executeSignal st signal name false true (some total) now
          (some real_o)).1.trade_history
        = st.trade_history ++ [recordOf st signal name now total real_o] ∧
      recordOf st signal name now total
          (simulatedOrder signal.symbol signal.action.val
            (positionSizeOf st signal total) none now)
        = { recordOf st signal name now total real_o with
            order_id := (simulatedOrder signal.symbol signal.action.val
              (positionSizeOf st signal total) none now).id } := by
  have hsim := executeSignal_reaches_order st signal name true total now none
    (not_le.mpr htotal) hcan (not_le.mpr hsize)
  have hlive := executeSignal_reaches_order st signal name false total now (some real_o)
    (not_le.mpr htotal) hcan (not_le.mpr hsize)
  rw [placeOrder_sandbox_coinbase _ _ _ _ _ _ _ hname] at hsim
  rw [placeOrder_live] at hlive
  simp only [Option.elim_some] at hsim hlive
  refine ⟨?_, ?_, rfl, rfl, ?_, ?_, ?_, ?_, rfl⟩
  · rw [hsim]
  · rw [hsim]
  · rw [hlive]
  · rw [hsim, hlive]
  · rw [hsim]
  · rw [hlive]

/-- Witness for C4 (amended) on a fresh basic-tier bot executing `sig0`
against a sandbox-flagged Coinbase connection with a 10000 balance. -/
theorem sandbox_coinbase_fill_matches_live_bookkeeping_witness :
    ((0 : ℚ) < 10000 ∧
        (canOpenNewPosition execSt0.rm 10000).1 = true ∧
        0 < positionSizeOf execSt0 sig0 10000) ∧
      (executeSignal execSt0 sig0 "coinbase" true true (some 10000) 0 none).2.1 = false ∧
      (executeSignal execSt0 sig0 "coinbase" true true (some 10000) 0 none).2.2
        = some (simulatedOrder sig0.symbol sig0.action.val
            (positionSizeOf execSt0 sig0 10000) none 0) ∧
      (executeSignal execSt0 sig0 "coinbase" false true (some 10000) 0
          (some realOrder0)).2.1 = true ∧
      (executeSignal execSt0 sig0 "coinbase" true true (some 10000) 0 none).1.rm
        = (executeSignal execSt0 sig0 "coinbase" false true (some 10000) 0
            (some realOrder0)).1.rm ∧
      recordOf execSt0 sig0 "coinbase" 0 10000
          (simulatedOrder sig0.symbol sig0.action.val
            (positionSizeOf execSt0 sig0 10000) none 0)
        = { recordOf execSt0 sig0 "coinbase" 0 10000 realOrder0 with
            order_id := (simulatedOrder sig0.symbol sig0.action.val
              (positionSizeOf execSt0 sig0 10000) none 0).id } :=
  have hcan : (canOpenNewPosition execSt0.rm 10000).1 = true := canOpen_fresh_10000
  have hsize : 0 < positionSizeOf execSt0 sig0 10000 := by
    rw [positionSizeOf_concrete]; norm_num
  have T := sandbox_coinbase_fill_matches_live_bookkeeping execSt0 sig0 "coinbase" 0
    10000 realOrder0 (Or.inl rfl) (by norm_num) hcan hsize
  ⟨⟨by norm_num, hcan, hsize⟩, T.1, T.2.1, T.2.2.2.2.1, T.2.2.2.2.2.1, T.2.2.2.2.2.2.2.2⟩

end LucentPath
